import Mathlib

/-!
Shallow embedding of the payment-to-ledger reconciliation core of the
k3c-platform repository: the Mongoose data model (`Campaign`,
`Contribution`, `Transaction`, `User`), the gateway-adapter parsing
helpers (`MPESAService.processCallback`, `MPESAService.formatPhoneNumber`,
`PaystackService.processWebhook`), and the three reconciliation request
handlers (`handleMPESACallback`, `handlePaystackWebhook`,
`verifyPaystackPayment`).  Monetary amounts are modelled as exact
rationals, Mongo ObjectIds as naturals, and the document collections as
association lists keyed by id.  Raw JavaScript payload values are
modelled by an explicit `JsValue` type so that malformed provider
payloads exist in the model; a JavaScript property access that throws a
`TypeError` at runtime is modelled by `Except.error`.
-/

/-- A JavaScript runtime value, as far as the webhook payloads need:
`undefined`, `null`, booleans, numbers (including `NaN` as a separate
constructor), strings, arrays and plain objects. -/
inductive JsValue where
  | undefined : JsValue
  | null : JsValue
  | bool : Bool → JsValue
  | num : Rat → JsValue
  | nan : JsValue
  | str : String → JsValue
  | arr : List JsValue → JsValue
  | obj : List (String × JsValue) → JsValue
deriving Repr

/-- The only runtime error the parsing code can raise: a `TypeError`
from reading a property of `undefined`/`null` or iterating a
non-array. -/
inductive JsError where
  | typeError : JsError
deriving Repr, DecidableEq

/-- Property access `v[k]`: throws on `undefined`/`null`, looks the key
up on an object (missing keys give `undefined`), and gives `undefined`
on every other primitive. -/
def JsValue.getField : JsValue → String → Except JsError JsValue
  | .undefined, _ => .error .typeError
  | .null, _ => .error .typeError
  | .obj fields, k => .ok ((fields.lookup k).getD .undefined)
  | _, _ => .ok .undefined

/-- JavaScript truthiness of a value. -/
def JsValue.truthy : JsValue → Bool
  | .undefined => false
  | .null => false
  | .bool b => b
  | .num q => decide (q ≠ 0)
  | .nan => false
  | .str s => decide (s ≠ "")
  | .arr _ => true
  | .obj _ => true

/-- Strict equality `v === q` against a number literal. -/
def JsValue.eqNum : JsValue → Rat → Bool
  | .num r, q => decide (r = q)
  | _, _ => false

/-- Strict equality `v === s` against a string literal. -/
def JsValue.eqStr : JsValue → String → Bool
  | .str t, s => decide (t = s)
  | _, _ => false

/-- Division of a raw value by 100 (`payload.data.amount / 100`), with
JavaScript number coercion for the cases the model needs: numbers
divide, `null` coerces to `0`, booleans to `0`/`1`, and everything else
is treated as `NaN`. -/
def JsValue.div100 : JsValue → JsValue
  | .num q => .num (q / 100)
  | .null => .num 0
  | .bool b => .num ((if b then (1 : Rat) else 0) / 100)
  | _ => .nan

/-- Lifecycle status of a `Campaign` document. -/
inductive CampaignStatus where
  | draft | active | paused | completed
deriving Repr, DecidableEq

/-- Lifecycle status of a `Contribution` document. -/
inductive PaymentStatus where
  | pending | success | failed
deriving Repr, DecidableEq

/-- Payment channel recorded on a `Contribution`. -/
inductive PaymentMethod where
  | mpesa | card
deriving Repr, DecidableEq

/-- Lifecycle status of a `Transaction` document. -/
inductive TxStatus where
  | initiated | pending | success | failed | cancelled
deriving Repr, DecidableEq

/-- Payment provider recorded on a `Transaction`. -/
inductive Provider where
  | mpesa | paystack
deriving Repr, DecidableEq

/-- The fields of the `Campaign` Mongoose model that the reconciliation
flow and the derived virtuals read or write. -/
structure Campaign where
  goalAmount : Rat
  currentAmount : Rat
  status : CampaignStatus
deriving Repr, DecidableEq

/-- Virtual `completionPercentage` of a campaign: `0` when the goal is
`0`, otherwise `min (round ((currentAmount / goalAmount) * 100)) 100`,
exactly as the schema virtual computes it (`Math.round` rounds half
up, as `round` does). -/
def Campaign.completionPercentage (c : Campaign) : Int :=
  if c.goalAmount = 0 then 0
  else min (round ((c.currentAmount / c.goalAmount) * 100)) 100

/-- Virtual `remainingAmount` of a campaign:
`max (goalAmount - currentAmount) 0`. -/
def Campaign.remainingAmount (c : Campaign) : Rat :=
  max (c.goalAmount - c.currentAmount) 0

/-- The fields of the `User` Mongoose model that reconciliation reads. -/
structure User where
  name : String
deriving Repr, DecidableEq

/-- The fields of the `Contribution` Mongoose model that initiation
and reconciliation touch. -/
structure Contribution where
  userId : Option Nat
  campaignId : Nat
  amount : Rat
  paymentMethod : PaymentMethod
  paymentStatus : PaymentStatus
  paymentReference : String
  transactionId : Option String
  mpesaReceiptNumber : Option JsValue
  isAnonymous : Bool
  guestName : Option String
  guestEmail : Option String
deriving Repr

/-- Result of the external Paystack verify call
(`paystackService.verifyTransaction`), restricted to the fields the
verify handler reads. -/
structure VerifyResult where
  id : Nat
  status : String
  reference : String
  amount : Rat
  gateway_response : String
  paid_at : String
deriving Repr, DecidableEq

/-- Audit payload stored into `Transaction.callbackData`: either the raw
request body or a Paystack verification result. -/
inductive CallbackPayload where
  | raw : JsValue → CallbackPayload
  | verification : VerifyResult → CallbackPayload
deriving Repr

/-- The fields of the `Transaction` Mongoose model that initiation and
reconciliation touch. -/
structure Transaction where
  contributionId : Nat
  provider : Provider
  transactionReference : String
  amount : Rat
  status : TxStatus
  providerResponse : Option JsValue
  callbackData : Option CallbackPayload
  errorMessage : Option JsValue
deriving Repr

namespace MPESAService

/-- Character class of the `/\s/` regex used by `formatPhoneNumber`. -/
def jsIsSpace (c : Char) : Bool :=
  c = ' ' ∨ c = '\t' ∨ c = '\n' ∨ c = '\r' ∨ c = '\x0b' ∨ c = '\x0c'

/-- Character class kept by the `/[^0-9+]/` removal in
`formatPhoneNumber`: decimal digits and `+`. -/
def keepPhoneChar (c : Char) : Bool :=
  c.isDigit || c = '+'

/-- Core of `formatPhoneNumber` on character lists: strip whitespace,
strip everything outside `[0-9+]`, then rewrite a leading `+254`, a
leading `0`, or a missing `254` prefix into the canonical
`254`-prefixed form. -/
def formatPhoneChars (phoneNumber : List Char) : List Char :=
  let formatted := (phoneNumber.filter (fun c => !jsIsSpace c)).filter keepPhoneChar
  if ['+', '2', '5', '4'].isPrefixOf formatted then
    formatted.drop 1
  else if ['0'].isPrefixOf formatted then
    ['2', '5', '4'] ++ formatted.drop 1
  else if !(['2', '5', '4'].isPrefixOf formatted) then
    ['2', '5', '4'] ++ formatted
  else
    formatted

/-- `MPESAService.formatPhoneNumber`: normalize a phone number to the
M-Pesa `254XXXXXXXXX` format. -/
def formatPhoneNumber (phoneNumber : String) : String :=
  String.mk (formatPhoneChars phoneNumber.data)

/-- Parsed result of `MPESAService.processCallback`. -/
structure CallbackResult where
  success : Bool
  merchantRequestID : JsValue
  checkoutRequestID : JsValue
  resultCode : JsValue
  resultDescription : JsValue
  amount : Option JsValue
  mpesaReceiptNumber : Option JsValue
  transactionDate : Option JsValue
  phoneNumber : Option JsValue
deriving Repr

/-- Accumulation state of the `CallbackMetadata.Item.forEach` loop. -/
structure MetadataAcc where
  amount : Option JsValue
  mpesaReceiptNumber : Option JsValue
  transactionDate : Option JsValue
  phoneNumber : Option JsValue
deriving Repr

/-- One iteration of the metadata `forEach` body: read `item.Name` and
`item.Value` (throwing on `null`/`undefined` items) and record the
value under the matching switch case. -/
def metadataStep (acc : MetadataAcc) (item : JsValue) : Except JsError MetadataAcc :=
  match item.getField "Name" with
  | .error e => .error e
  | .ok name =>
  match item.getField "Value" with
  | .error e => .error e
  | .ok value =>
  if name.eqStr "Amount" then
    .ok { acc with amount := some value }
  else if name.eqStr "MpesaReceiptNumber" then
    .ok { acc with mpesaReceiptNumber := some value }
  else if name.eqStr "TransactionDate" then
    .ok { acc with transactionDate := some value }
  else if name.eqStr "PhoneNumber" then
    .ok { acc with phoneNumber := some value }
  else
    .ok acc

/-- `MPESAService.processCallback`: destructure
`callbackData.Body.stkCallback`, read the result fields, and when the
result code is `0` and callback metadata is present, fold over the
metadata items extracting amount, receipt number, transaction date and
phone number.  Property reads on `undefined`/`null` and `forEach` on a
non-array throw, exactly where the JavaScript would. -/
def processCallback (callbackData : JsValue) : Except JsError CallbackResult :=
  match callbackData.getField "Body" with
  | .error e => .error e
  | .ok body =>
  match body.getField "stkCallback" with
  | .error e => .error e
  | .ok stkCallback =>
  match stkCallback.getField "MerchantRequestID" with
  | .error e => .error e
  | .ok merchantRequestID =>
  match stkCallback.getField "CheckoutRequestID" with
  | .error e => .error e
  | .ok checkoutRequestID =>
  match stkCallback.getField "ResultCode" with
  | .error e => .error e
  | .ok resultCode =>
  match stkCallback.getField "ResultDesc" with
  | .error e => .error e
  | .ok resultDesc =>
  let succeeded := resultCode.eqNum 0
  match stkCallback.getField "CallbackMetadata" with
  | .error e => .error e
  | .ok callbackMetadata =>
  let mkResult : MetadataAcc → CallbackResult := fun meta =>
    { success := succeeded
      merchantRequestID := merchantRequestID
      checkoutRequestID := checkoutRequestID
      resultCode := resultCode
      resultDescription := resultDesc
      amount := meta.amount
      mpesaReceiptNumber := meta.mpesaReceiptNumber
      transactionDate := meta.transactionDate
      phoneNumber := meta.phoneNumber }
  if succeeded && callbackMetadata.truthy then
    match callbackMetadata.getField "Item" with
    | .error e => .error e
    | .ok items =>
      match items with
      | .arr xs =>
        match xs.foldlM metadataStep
            { amount := none, mpesaReceiptNumber := none,
              transactionDate := none, phoneNumber := none } with
        | .error e => .error e
        | .ok meta => .ok (mkResult meta)
      | _ => .error .typeError
  else
    .ok (mkResult
      { amount := none, mpesaReceiptNumber := none,
        transactionDate := none, phoneNumber := none })

end MPESAService

namespace PaystackService

/-- Parsed result of `PaystackService.processWebhook`. -/
structure WebhookResult where
  event : JsValue
  success : Bool
  reference : JsValue
  amount : JsValue
  status : JsValue
  paidAt : JsValue
  customer : JsValue
  authorization : JsValue
deriving Repr

/-- `PaystackService.processWebhook`: project the event name and the
`data` fields out of the webhook payload, converting the amount from
kobo.  Reading `data.status` throws when `data` is `undefined`/`null`,
exactly where the JavaScript would. -/
def processWebhook (payload : JsValue) : Except JsError WebhookResult :=
  match payload.getField "event" with
  | .error e => .error e
  | .ok event =>
  match payload.getField "data" with
  | .error e => .error e
  | .ok data =>
  match data.getField "status" with
  | .error e => .error e
  | .ok status =>
  match data.getField "reference" with
  | .error e => .error e
  | .ok reference =>
  match data.getField "amount" with
  | .error e => .error e
  | .ok amount =>
  match data.getField "paid_at" with
  | .error e => .error e
  | .ok paidAt =>
  match data.getField "customer" with
  | .error e => .error e
  | .ok customer =>
  match data.getField "authorization" with
  | .error e => .error e
  | .ok authorization =>
  .ok {
    event := event
    success := status.eqStr "success"
    reference := reference
    amount := amount.div100
    status := status
    paidAt := paidAt
    customer := customer
    authorization := authorization }

end PaystackService

/-- The document store: the four collections the reconciliation flow
touches, each an association list keyed by ObjectId. -/
structure DB where
  campaigns : List (Nat × Campaign)
  contributions : List (Nat × Contribution)
  transactions : List (Nat × Transaction)
  users : List (Nat × User)
deriving Repr

/-- Replace the value stored under a key (Mongoose `document.save()` of
an already-loaded document: a no-op when the id is absent). -/
def updateEntry {α : Type} : List (Nat × α) → Nat → α → List (Nat × α)
  | [], _, _ => []
  | (a, b) :: l, k, v => (if a = k then (a, v) else (a, b)) :: updateEntry l k v

/-- Save a transaction document back into the store. -/
def DB.saveTransaction (db : DB) (k : Nat) (t : Transaction) : DB :=
  { db with transactions := updateEntry db.transactions k t }

/-- Save a contribution document back into the store. -/
def DB.saveContribution (db : DB) (k : Nat) (c : Contribution) : DB :=
  { db with contributions := updateEntry db.contributions k c }

/-- Save a campaign document back into the store. -/
def DB.saveCampaign (db : DB) (k : Nat) (c : Campaign) : DB :=
  { db with campaigns := updateEntry db.campaigns k c }

/-- `Transaction.findOne({ transactionReference })` with a raw payload
value as the query: matches only when the value is the string equal to
the stored reference. -/
def DB.findTransactionByRef (db : DB) (ref : JsValue) : Option (Nat × Transaction) :=
  db.transactions.find? (fun p => ref.eqStr p.2.transactionReference)

/-- `Transaction.findOne({ transactionReference })` with a string
reference (the verify route parameter). -/
def DB.findTransactionByRefStr (db : DB) (ref : String) : Option (Nat × Transaction) :=
  db.transactions.find? (fun p => p.2.transactionReference = ref)

/-- `Contribution.countDocuments({ campaignId, paymentStatus: 'success' })`. -/
def DB.countSuccessfulContributions (db : DB) (campaignId : Nat) : Nat :=
  (db.contributions.filter
    (fun p => p.2.campaignId = campaignId ∧ p.2.paymentStatus = .success)).length

/-- One Socket.IO event emitted during reconciliation, with the fields
the handlers pass to the socket service. -/
inductive SocketEvent where
  | campaignUpdated (campaignId : Nat) (currentAmount : Rat)
      (completionPercentage : Int) (contributionAmount : Rat)
      (isAnonymous : Bool) (donorName : Option String) : SocketEvent
  | newContribution (campaignId : Nat) (amount : Rat) (isAnonymous : Bool)
      (donorName : Option String) (paymentMethod : String) : SocketEvent
  | campaignCompleted (campaignId : Nat) (goalAmount : Rat)
      (currentAmount : Rat) (totalContributions : Nat) : SocketEvent
deriving Repr, DecidableEq

/-- HTTP acknowledgment returned to Safaricom by the M-Pesa callback
handler. -/
structure MpesaAck where
  status : Nat
  resultCode : Nat
  resultDesc : String
deriving Repr, DecidableEq

/-- HTTP acknowledgment returned to Paystack by the webhook handler. -/
structure WebhookAck where
  status : Nat
  body : String
deriving Repr, DecidableEq

/-- HTTP response of the client-facing Paystack verify endpoint. -/
structure VerifyResponse where
  status : Nat
  success : Bool
  message : String
deriving Repr, DecidableEq

/-- Donor display-name resolution shared verbatim by all three
handlers: `undefined` when anonymous, else the linked user's name
(`user?.name`) when a user reference exists, else the guest name. -/
def resolveDonorName (users : List (Nat × User)) (contribution : Contribution) : Option String :=
  if contribution.isAnonymous then none
  else
    match contribution.userId with
    | some userId => (users.lookup userId).map User.name
    | none => contribution.guestName

/-- Shared success branch of the three handlers: credit the campaign,
emit the update and new-contribution events, then (after the credit)
check goal completion, transition the campaign, count successful
contributions and emit the completion event. -/
def creditCampaign (db : DB) (campaignId : Nat) (campaign : Campaign)
    (contribution : Contribution) (paymentMethod : String) :
    DB × List SocketEvent :=
  let campaign1 : Campaign :=
    { campaign with currentAmount := campaign.currentAmount + contribution.amount }
  let db1 := db.saveCampaign campaignId campaign1
  let donorName := resolveDonorName db1.users contribution
  let ev1 : SocketEvent :=
    .campaignUpdated campaignId campaign1.currentAmount
      campaign1.completionPercentage contribution.amount
      contribution.isAnonymous donorName
  let ev2 : SocketEvent :=
    .newContribution campaignId contribution.amount contribution.isAnonymous
      donorName paymentMethod
  if campaign1.currentAmount ≥ campaign1.goalAmount ∧ campaign1.status ≠ .completed then
    let campaign2 : Campaign := { campaign1 with status := .completed }
    let db2 := db1.saveCampaign campaignId campaign2
    let totalContributions := db2.countSuccessfulContributions campaignId
    let ev3 : SocketEvent :=
      .campaignCompleted campaignId campaign1.goalAmount
        campaign1.currentAmount totalContributions
    (db2, [ev1, ev2, ev3])
  else
    (db1, [ev1, ev2])

/-- `handleMPESACallback`: parse the callback (a thrown parse error is
caught and answered with a 500), look the transaction up by
`CheckoutRequestID` (absent → 404), set the transaction status from
the outcome, store the raw body as `callbackData` and the result
description as `errorMessage` on failure, set the contribution status
in lockstep (attaching the receipt number when present and truthy),
and on success credit the campaign and emit the events; always
acknowledge with `ResultCode 0 / Accepted` once past the lookup. -/
def handleMPESACallback (db : DB) (body : JsValue) :
    DB × List SocketEvent × MpesaAck :=
  match MPESAService.processCallback body with
  | .error _ => (db, [], ⟨500, 1, "Internal server error"⟩)
  | .ok callbackResult =>
    match db.findTransactionByRef callbackResult.checkoutRequestID with
    | none => (db, [], ⟨404, 1, "Transaction not found"⟩)
    | some (txId, transaction) =>
      let transaction1 : Transaction :=
        { transaction with
          status := if callbackResult.success then .success else .failed
          callbackData := some (.raw body)
          errorMessage :=
            if callbackResult.success then transaction.errorMessage
            else some callbackResult.resultDescription }
      let db1 := db.saveTransaction txId transaction1
      match db1.contributions.lookup transaction.contributionId with
      | none => (db1, [], ⟨200, 0, "Accepted"⟩)
      | some contribution =>
        let contribution1 : Contribution :=
          { contribution with
            paymentStatus := if callbackResult.success then .success else .failed
            mpesaReceiptNumber :=
              match callbackResult.mpesaReceiptNumber with
              | some v => if v.truthy then some v else contribution.mpesaReceiptNumber
              | none => contribution.mpesaReceiptNumber }
        let db2 := db1.saveContribution transaction.contributionId contribution1
        if callbackResult.success then
          match db2.campaigns.lookup contribution1.campaignId with
          | none => (db2, [], ⟨200, 0, "Accepted"⟩)
          | some campaign =>
            let res := creditCampaign db2 contribution1.campaignId campaign contribution1 "mpesa"
            (res.1, res.2, ⟨200, 0, "Accepted"⟩)
        else
          (db2, [], ⟨200, 0, "Accepted"⟩)

/-- `handlePaystackWebhook`: parse the webhook (a thrown parse error is
caught and answered with a 500), ignore every event other than
`charge.success`, look the transaction up by reference (absent → 404),
set transaction and contribution status from the outcome, store the
raw body as `callbackData`, and on success credit the campaign and
emit the events. -/
def handlePaystackWebhook (db : DB) (body : JsValue) :
    DB × List SocketEvent × WebhookAck :=
  match PaystackService.processWebhook body with
  | .error _ => (db, [], ⟨500, "error"⟩)
  | .ok webhookResult =>
    if !webhookResult.event.eqStr "charge.success" then
      (db, [], ⟨200, "ignored"⟩)
    else
      match db.findTransactionByRef webhookResult.reference with
      | none => (db, [], ⟨404, "transaction not found"⟩)
      | some (txId, transaction) =>
        let transaction1 : Transaction :=
          { transaction with
            status := if webhookResult.success then .success else .failed
            callbackData := some (.raw body) }
        let db1 := db.saveTransaction txId transaction1
        match db1.contributions.lookup transaction.contributionId with
        | none => (db1, [], ⟨200, "success"⟩)
        | some contribution =>
          let contribution1 : Contribution :=
            { contribution with
              paymentStatus := if webhookResult.success then .success else .failed }
          let db2 := db1.saveContribution transaction.contributionId contribution1
          if webhookResult.success then
            match db2.campaigns.lookup contribution1.campaignId with
            | none => (db2, [], ⟨200, "success"⟩)
            | some campaign =>
              let res := creditCampaign db2 contribution1.campaignId campaign contribution1 "card"
              (res.1, res.2, ⟨200, "success"⟩)
          else
            (db2, [], ⟨200, "success"⟩)

/-- `verifyPaystackPayment`: given the route reference and the result
of the external Paystack verification call, look the transaction up by
reference (absent → 404), set the transaction status from the
verification status, store the verification result as `callbackData`
and the gateway response as `errorMessage` on failure, set the
contribution status in lockstep and record the provider transaction
id, and on success credit the campaign and emit the events. -/
def verifyPaystackPayment (db : DB) (reference : String)
    (verificationResult : VerifyResult) :
    DB × List SocketEvent × VerifyResponse :=
  match db.findTransactionByRefStr reference with
  | none => (db, [], ⟨404, false, "Transaction not found."⟩)
  | some (txId, transaction) =>
    let succeeded := verificationResult.status = "success"
    let transaction1 : Transaction :=
      { transaction with
        status := if succeeded then .success else .failed
        callbackData := some (.verification verificationResult)
        errorMessage :=
          if succeeded then transaction.errorMessage
          else some (.str verificationResult.gateway_response) }
    let db1 := db.saveTransaction txId transaction1
    match db1.contributions.lookup transaction.contributionId with
    | none => (db1, [], ⟨200, true, if succeeded then "Payment successful!" else "Payment failed"⟩)
    | some contribution =>
      let contribution1 : Contribution :=
        { contribution with
          paymentStatus := if succeeded then .success else .failed
          transactionId := some (toString verificationResult.id) }
      let db2 := db1.saveContribution transaction.contributionId contribution1
      if succeeded then
        match db2.campaigns.lookup contribution1.campaignId with
        | none => (db2, [], ⟨200, true, "Payment successful!"⟩)
        | some campaign =>
          let res := creditCampaign db2 contribution1.campaignId campaign contribution1 "card"
          (res.1, res.2, ⟨200, true, "Payment successful!"⟩)
      else
        (db2, [], ⟨200, true, "Payment failed"⟩)


/-! Concrete fixtures used by the closed evaluations below: a campaign,
a pending guest contribution with its transaction (correlation token
`CR1`), and representative provider payloads. -/

/-- Campaign with goal 5000 and nothing collected. -/
def camp5000 : Campaign := { goalAmount := 5000, currentAmount := 0, status := .active }

/-- Campaign with goal 1000 and nothing collected. -/
def camp1000 : Campaign := { goalAmount := 1000, currentAmount := 0, status := .active }

/-- Pending non-anonymous guest contribution of 1000 for campaign 1. -/
def contribJane : Contribution where
  userId := none
  campaignId := 1
  amount := 1000
  paymentMethod := .mpesa
  paymentStatus := .pending
  paymentReference := "CR1"
  transactionId := none
  mpesaReceiptNumber := none
  isAnonymous := false
  guestName := some "Jane Guest"
  guestEmail := some "jane@example.com"

/-- The same guest contribution with the anonymity flag set. -/
def contribAnon : Contribution := { contribJane with isAnonymous := true }

/-- Pending transaction for contribution 1 with correlation token `CR1`. -/
def txCR1 : Transaction where
  contributionId := 1
  provider := .mpesa
  transactionReference := "CR1"
  amount := 1000
  status := .pending
  providerResponse := none
  callbackData := none
  errorMessage := none

/-- Store with one active campaign (goal 5000), one pending
contribution and its transaction. -/
def dbA : DB where
  campaigns := [(1, camp5000)]
  contributions := [(1, contribJane)]
  transactions := [(1, txCR1)]
  users := []

/-- Store like `dbA` but with campaign goal 1000, so one contribution
of 1000 reaches the goal. -/
def dbB : DB where
  campaigns := [(1, camp1000)]
  contributions := [(1, contribJane)]
  transactions := [(1, txCR1)]
  users := []

/-- Store like `dbA` but with the anonymous guest contribution. -/
def dbC : DB where
  campaigns := [(1, camp5000)]
  contributions := [(1, contribAnon)]
  transactions := [(1, txCR1)]
  users := []

/-- Successful M-Pesa STK callback payload for token `CR1`. -/
def okBody : JsValue :=
  .obj [("Body", .obj [("stkCallback", .obj [
    ("MerchantRequestID", .str "M1"),
    ("CheckoutRequestID", .str "CR1"),
    ("ResultCode", .num 0),
    ("ResultDesc", .str "Success"),
    ("CallbackMetadata", .obj [("Item", .arr [
      .obj [("Name", .str "Amount"), ("Value", .num 1000)],
      .obj [("Name", .str "MpesaReceiptNumber"), ("Value", .str "QGH12345")]])])])])]

/-- Failed M-Pesa STK callback payload for token `CR1`. -/
def failBody : JsValue :=
  .obj [("Body", .obj [("stkCallback", .obj [
    ("MerchantRequestID", .str "M1"),
    ("CheckoutRequestID", .str "CR1"),
    ("ResultCode", .num 1032),
    ("ResultDesc", .str "Request cancelled by user")])])]

/-- Successful M-Pesa STK callback payload for a token the store never
issued. -/
def nopeBody : JsValue :=
  .obj [("Body", .obj [("stkCallback", .obj [
    ("MerchantRequestID", .str "M1"),
    ("CheckoutRequestID", .str "NOPE"),
    ("ResultCode", .num 0),
    ("ResultDesc", .str "Success")])])]

/-- Parsed form of `okBody`. -/
def crOk : MPESAService.CallbackResult where
  success := true
  merchantRequestID := .str "M1"
  checkoutRequestID := .str "CR1"
  resultCode := .num 0
  resultDescription := .str "Success"
  amount := some (.num 1000)
  mpesaReceiptNumber := some (.str "QGH12345")
  transactionDate := none
  phoneNumber := none

/-- Parsed form of `failBody`. -/
def crFail : MPESAService.CallbackResult where
  success := false
  merchantRequestID := .str "M1"
  checkoutRequestID := .str "CR1"
  resultCode := .num 1032
  resultDescription := .str "Request cancelled by user"
  amount := none
  mpesaReceiptNumber := none
  transactionDate := none
  phoneNumber := none

/-- Parsed form of `nopeBody`. -/
def crNope : MPESAService.CallbackResult where
  success := true
  merchantRequestID := .str "M1"
  checkoutRequestID := .str "NOPE"
  resultCode := .num 0
  resultDescription := .str "Success"
  amount := none
  mpesaReceiptNumber := none
  transactionDate := none
  phoneNumber := none

/-- Paystack `charge.success` webhook payload for token `CR1` with a
successful charge status. -/
def whOkBody : JsValue :=
  .obj [("event", .str "charge.success"),
        ("data", .obj [("status", .str "success"), ("reference", .str "CR1"),
                       ("amount", .num 100000), ("paid_at", .str "2025-01-01"),
                       ("customer", .obj []), ("authorization", .obj [])])]

/-- Paystack `charge.success` webhook payload for token `CR1` whose
charge status is not `success`. -/
def whFailBody : JsValue :=
  .obj [("event", .str "charge.success"),
        ("data", .obj [("status", .str "failed"), ("reference", .str "CR1"),
                       ("amount", .num 100000), ("paid_at", .str "2025-01-01"),
                       ("customer", .obj []), ("authorization", .obj [])])]

/-- Paystack webhook payload referencing a token the store never
issued. -/
def whNopeBody : JsValue :=
  .obj [("event", .str "charge.success"),
        ("data", .obj [("status", .str "success"), ("reference", .str "NOPE"),
                       ("amount", .num 100000), ("paid_at", .str "2025-01-01"),
                       ("customer", .obj []), ("authorization", .obj [])])]

/-- Parsed form of `whOkBody`. -/
def wrOk : PaystackService.WebhookResult where
  event := .str "charge.success"
  success := true
  reference := .str "CR1"
  amount := .num (100000 / 100)
  status := .str "success"
  paidAt := .str "2025-01-01"
  customer := .obj []
  authorization := .obj []

/-- Parsed form of `whFailBody`. -/
def wrFail : PaystackService.WebhookResult where
  event := .str "charge.success"
  success := false
  reference := .str "CR1"
  amount := .num (100000 / 100)
  status := .str "failed"
  paidAt := .str "2025-01-01"
  customer := .obj []
  authorization := .obj []

/-- Parsed form of `whNopeBody`. -/
def wrNope : PaystackService.WebhookResult where
  event := .str "charge.success"
  success := true
  reference := .str "NOPE"
  amount := .num (100000 / 100)
  status := .str "success"
  paidAt := .str "2025-01-01"
  customer := .obj []
  authorization := .obj []

/-- Failed verification result from the external Paystack verify call. -/
def vrFail : VerifyResult where
  id := 55
  status := "failed"
  reference := "CR1"
  amount := 100000
  gateway_response := "Declined"
  paid_at := ""

/-- Successful verification result for token `CR1`. -/
def vrOk : VerifyResult where
  id := 55
  status := "success"
  reference := "CR1"
  amount := 100000
  gateway_response := "Successful"
  paid_at := "2025-01-01"



/-- `contribJane` after a successful reconciliation: status `success`
and the receipt attached. -/
def contribJane1 : Contribution :=
  { contribJane with paymentStatus := .success, mpesaReceiptNumber := some (.str "QGH12345") }

/-- `txCR1` after a successful reconciliation: status `success` and the
raw callback stored. -/
def txCR1s : Transaction :=
  { txCR1 with status := .success, callbackData := some (.raw okBody) }

/-- `dbA` after one successful reconciliation of token `CR1`. -/
def dbA1 : DB where
  campaigns := [(1, { camp5000 with currentAmount := 1000 })]
  contributions := [(1, contribJane1)]
  transactions := [(1, txCR1s)]
  users := []

/-- `dbA` after the same successful callback was delivered twice: the
campaign total was credited twice. -/
def dbA2 : DB where
  campaigns := [(1, { camp5000 with currentAmount := 2000 })]
  contributions := [(1, contribJane1)]
  transactions := [(1, txCR1s)]
  users := []

/-- `dbB` after its single contribution of 1000 reconciled: goal
reached and campaign completed. -/
def dbB1 : DB where
  campaigns := [(1, { goalAmount := 1000, currentAmount := 1000, status := .completed })]
  contributions := [(1, contribJane1)]
  transactions := [(1, txCR1s)]
  users := []


/-- Looking a key up after replacing its stored value: the new value is
found exactly when the key was present. -/
theorem lookup_updateEntry_self {α : Type} (l : List (Nat × α)) (k : Nat) (v : α) :
    (updateEntry l k v).lookup k = (l.lookup k).map (fun _ => v) := by
  induction l with
  | nil => rfl
  | cons p l ih =>
      obtain ⟨a, b⟩ := p
      by_cases h : a = k
      · subst h
        rw [updateEntry, if_pos rfl]
        simp [List.lookup]
      · have hb : (k == a) = false := beq_eq_false_iff_ne.mpr (Ne.symm h)
        rw [updateEntry, if_neg h]
        simp [List.lookup, hb, ih]

/-- Looking a different key up after replacing a stored value leaves the
result unchanged. -/
theorem lookup_updateEntry_ne {α : Type} (l : List (Nat × α)) (k k' : Nat) (v : α)
    (h : k' ≠ k) : (updateEntry l k v).lookup k' = l.lookup k' := by
  induction l with
  | nil => rfl
  | cons p l ih =>
      obtain ⟨a, b⟩ := p
      by_cases ha : a = k
      · subst ha
        have hb : (k' == a) = false := beq_eq_false_iff_ne.mpr h
        rw [updateEntry, if_pos rfl]
        simp [List.lookup, hb, ih]
      · by_cases hc : k' = a
        · subst hc
          rw [updateEntry, if_neg ha]
          simp [List.lookup]
        · have hb : (k' == a) = false := beq_eq_false_iff_ne.mpr hc
          rw [updateEntry, if_neg ha]
          simp [List.lookup, hb, ih]

/-- Parse throw path of the M-Pesa callback handler: the catch-all
responds 500 and nothing is mutated. -/
theorem mpesa_parse_error (db : DB) (body : JsValue) (e : JsError)
    (h : MPESAService.processCallback body = .error e) :
    handleMPESACallback db body = (db, [], ⟨500, 1, "Internal server error"⟩) := by
  unfold handleMPESACallback
  rw [h]

theorem mpesa_no_transaction (db : DB) (body : JsValue) (cr : MPESAService.CallbackResult)
    (h : MPESAService.processCallback body = .ok cr)
    (ht : db.findTransactionByRef cr.checkoutRequestID = none) :
    handleMPESACallback db body = (db, [], ⟨404, 1, "Transaction not found"⟩) := by
  unfold handleMPESACallback
  rw [h]
  simp only [ht]

theorem mpesa_failed (db : DB) (body : JsValue) (cr : MPESAService.CallbackResult)
    (txId : Nat) (t : Transaction) (c : Contribution)
    (h : MPESAService.processCallback body = .ok cr)
    (hs : cr.success = false)
    (hr : cr.mpesaReceiptNumber = none)
    (ht : db.findTransactionByRef cr.checkoutRequestID = some (txId, t))
    (hc : db.contributions.lookup t.contributionId = some c) :
    handleMPESACallback db body =
      ({ db with
          transactions := updateEntry db.transactions txId
            { t with status := .failed, callbackData := some (.raw body),
                     errorMessage := some cr.resultDescription },
          contributions := updateEntry db.contributions t.contributionId
            { c with paymentStatus := .failed } }, [],
        ⟨200, 0, "Accepted"⟩) := by
  unfold handleMPESACallback
  rw [h]
  simp only [ht, hs, hr, DB.saveTransaction, DB.saveContribution, Bool.false_eq_true,
    if_false]
  rw [show ({ db with transactions := updateEntry db.transactions txId { t with status := .failed, callbackData := some (.raw body), errorMessage := some cr.resultDescription } } : DB).contributions = db.contributions from rfl]
  simp only [hc]

theorem processCallback_receipt_none {body : JsValue} {cr : MPESAService.CallbackResult}
    (h : MPESAService.processCallback body = .ok cr) (hs : cr.success = false) :
    cr.mpesaReceiptNumber = none := by
  unfold MPESAService.processCallback at h
  repeat' split at h
  all_goals
    first
    | (simp at h; done)
    | (injection h with h; subst h; rfl)
    | (rcases ite_eq_iff.mp h with ⟨hP, hX⟩ | ⟨hP, hX⟩ <;>
        first
        | (simp at hX; done)
        | (injection hX with hX; subst hX; first | rfl | simp_all))

theorem creditCampaign_frame (db : DB) (cid : Nat) (camp : Campaign)
    (c : Contribution) (pm : String) :
    (creditCampaign db cid camp c pm).1.contributions = db.contributions ∧
    (creditCampaign db cid camp c pm).1.transactions = db.transactions ∧
    (creditCampaign db cid camp c pm).1.users = db.users := by
  simp only [creditCampaign]
  split <;> simp [DB.saveCampaign]

theorem creditCampaign_events (db : DB) (cid : Nat) (camp : Campaign)
    (c : Contribution) (pm : String) :
    ∃ rest, (creditCampaign db cid camp c pm).2 =
      SocketEvent.campaignUpdated cid (camp.currentAmount + c.amount)
        (Campaign.completionPercentage
          { camp with currentAmount := camp.currentAmount + c.amount })
        c.amount c.isAnonymous (resolveDonorName db.users c) ::
      SocketEvent.newContribution cid c.amount c.isAnonymous
        (resolveDonorName db.users c) pm :: rest := by
  simp only [creditCampaign]
  split
  · exact ⟨[_], rfl⟩
  · exact ⟨[], rfl⟩

theorem creditCampaign_status_completed (db : DB) (cid0 : Nat) (camp0 : Campaign)
    (c : Contribution) (pm : String) (cid : Nat) (camp : Campaign)
    (h0 : db.campaigns.lookup cid0 = some camp0)
    (h : db.campaigns.lookup cid = some camp)
    (hcomp : camp.status = .completed) :
    ∃ camp', (creditCampaign db cid0 camp0 c pm).1.campaigns.lookup cid = some camp' ∧
      camp'.status = .completed := by
  simp only [creditCampaign]
  by_cases hk : cid = cid0
  · subst hk
    rw [h0] at h
    injection h with h
    subst h
    rw [if_neg]
    · refine ⟨{ camp0 with currentAmount := camp0.currentAmount + c.amount }, ?_, hcomp⟩
      simp [DB.saveCampaign, lookup_updateEntry_self, h0]
    · rintro ⟨-, hne⟩
      exact hne hcomp
  · split
    · exact ⟨camp, by
        simp [DB.saveCampaign, lookup_updateEntry_ne _ _ _ _ hk, h], hcomp⟩
    · exact ⟨camp, by
        simp [DB.saveCampaign, lookup_updateEntry_ne _ _ _ _ hk, h], hcomp⟩

theorem mpesa_success (db : DB) (body : JsValue) (cr : MPESAService.CallbackResult)
    (txId : Nat) (t : Transaction) (c : Contribution) (camp : Campaign)
    (h : MPESAService.processCallback body = .ok cr)
    (hs : cr.success = true)
    (ht : db.findTransactionByRef cr.checkoutRequestID = some (txId, t))
    (hc : db.contributions.lookup t.contributionId = some c)
    (hcamp : db.campaigns.lookup c.campaignId = some camp) :
    handleMPESACallback db body =
      (let c1 : Contribution :=
        { c with
          paymentStatus := .success
          mpesaReceiptNumber :=
            match cr.mpesaReceiptNumber with
            | some v => if v.truthy then some v else c.mpesaReceiptNumber
            | none => c.mpesaReceiptNumber }
      let db2 : DB :=
        { db with
          transactions := updateEntry db.transactions txId
            { t with status := .success, callbackData := some (.raw body) },
          contributions := updateEntry db.contributions t.contributionId c1 }
      let res := creditCampaign db2 c.campaignId camp c1 "mpesa"
      (res.1, res.2, ⟨200, 0, "Accepted"⟩)) := by
  unfold handleMPESACallback
  rw [h]
  simp only [ht, hs, DB.saveTransaction, DB.saveContribution, if_true]
  rw [show ({ db with transactions := updateEntry db.transactions txId { t with status := .success, callbackData := some (.raw body) } } : DB).contributions = db.contributions from rfl]
  simp only [hc, hcamp]

theorem webhook_parse_error (db : DB) (body : JsValue) (e : JsError)
    (h : PaystackService.processWebhook body = .error e) :
    handlePaystackWebhook db body = (db, [], ⟨500, "error"⟩) := by
  unfold handlePaystackWebhook
  rw [h]

theorem webhook_ignored (db : DB) (body : JsValue) (wr : PaystackService.WebhookResult)
    (h : PaystackService.processWebhook body = .ok wr)
    (he : wr.event.eqStr "charge.success" = false) :
    handlePaystackWebhook db body = (db, [], ⟨200, "ignored"⟩) := by
  unfold handlePaystackWebhook
  rw [h]
  simp only [he, Bool.not_false, if_true]

theorem webhook_no_transaction (db : DB) (body : JsValue) (wr : PaystackService.WebhookResult)
    (h : PaystackService.processWebhook body = .ok wr)
    (he : wr.event.eqStr "charge.success" = true)
    (ht : db.findTransactionByRef wr.reference = none) :
    handlePaystackWebhook db body = (db, [], ⟨404, "transaction not found"⟩) := by
  unfold handlePaystackWebhook
  rw [h]
  simp only [he, Bool.not_true, if_false, ht, Bool.false_eq_true]

theorem webhook_failed (db : DB) (body : JsValue) (wr : PaystackService.WebhookResult)
    (txId : Nat) (t : Transaction) (c : Contribution)
    (h : PaystackService.processWebhook body = .ok wr)
    (he : wr.event.eqStr "charge.success" = true)
    (hs : wr.success = false)
    (ht : db.findTransactionByRef wr.reference = some (txId, t))
    (hc : db.contributions.lookup t.contributionId = some c) :
    handlePaystackWebhook db body =
      ({ db with
          transactions := updateEntry db.transactions txId
            { t with status := .failed, callbackData := some (.raw body) },
          contributions := updateEntry db.contributions t.contributionId
            { c with paymentStatus := .failed } }, [],
        ⟨200, "success"⟩) := by
  unfold handlePaystackWebhook
  rw [h]
  simp only [he, Bool.not_true, if_false, ht, hs, DB.saveTransaction, DB.saveContribution,
    Bool.false_eq_true]
  rw [show ({ db with transactions := updateEntry db.transactions txId { t with status := .failed, callbackData := some (.raw body) } } : DB).contributions = db.contributions from rfl]
  simp only [hc, if_false]

theorem webhook_success (db : DB) (body : JsValue) (wr : PaystackService.WebhookResult)
    (txId : Nat) (t : Transaction) (c : Contribution) (camp : Campaign)
    (h : PaystackService.processWebhook body = .ok wr)
    (he : wr.event.eqStr "charge.success" = true)
    (hs : wr.success = true)
    (ht : db.findTransactionByRef wr.reference = some (txId, t))
    (hc : db.contributions.lookup t.contributionId = some c)
    (hcamp : db.campaigns.lookup c.campaignId = some camp) :
    handlePaystackWebhook db body =
      (let c1 : Contribution := { c with paymentStatus := .success }
      let db2 : DB :=
        { db with
          transactions := updateEntry db.transactions txId
            { t with status := .success, callbackData := some (.raw body) },
          contributions := updateEntry db.contributions t.contributionId c1 }
      let res := creditCampaign db2 c.campaignId camp c1 "card"
      (res.1, res.2, ⟨200, "success"⟩)) := by
  unfold handlePaystackWebhook
  rw [h]
  simp only [he, Bool.not_true, if_false, ht, hs, DB.saveTransaction, DB.saveContribution,
    if_true, Bool.false_eq_true]
  rw [show ({ db with transactions := updateEntry db.transactions txId { t with status := .success, callbackData := some (.raw body) } } : DB).contributions = db.contributions from rfl]
  simp only [hc, hcamp]

theorem verify_no_transaction (db : DB) (reference : String) (vr : VerifyResult)
    (ht : db.findTransactionByRefStr reference = none) :
    verifyPaystackPayment db reference vr = (db, [], ⟨404, false, "Transaction not found."⟩) := by
  unfold verifyPaystackPayment
  rw [ht]

theorem verify_failed (db : DB) (reference : String) (vr : VerifyResult)
    (txId : Nat) (t : Transaction) (c : Contribution)
    (hs : vr.status ≠ "success")
    (ht : db.findTransactionByRefStr reference = some (txId, t))
    (hc : db.contributions.lookup t.contributionId = some c) :
    verifyPaystackPayment db reference vr =
      ({ db with
          transactions := updateEntry db.transactions txId
            { t with status := .failed, callbackData := some (.verification vr),
                     errorMessage := some (.str vr.gateway_response) },
          contributions := updateEntry db.contributions t.contributionId
            { c with paymentStatus := .failed,
                     transactionId := some (toString vr.id) } }, [],
        ⟨200, true, "Payment failed"⟩) := by
  unfold verifyPaystackPayment
  rw [ht]
  simp only [hs, DB.saveTransaction, DB.saveContribution, if_neg hs, if_false]
  rw [show ({ db with transactions := updateEntry db.transactions txId { t with status := .failed, callbackData := some (.verification vr), errorMessage := some (.str vr.gateway_response) } } : DB).contributions = db.contributions from rfl]
  simp only [hc, if_neg hs, if_false]

theorem verify_success (db : DB) (reference : String) (vr : VerifyResult)
    (txId : Nat) (t : Transaction) (c : Contribution) (camp : Campaign)
    (hs : vr.status = "success")
    (ht : db.findTransactionByRefStr reference = some (txId, t))
    (hc : db.contributions.lookup t.contributionId = some c)
    (hcamp : db.campaigns.lookup c.campaignId = some camp) :
    verifyPaystackPayment db reference vr =
      (let c1 : Contribution := { c with paymentStatus := .success,
                                         transactionId := some (toString vr.id) }
      let db2 : DB :=
        { db with
          transactions := updateEntry db.transactions txId
            { t with status := .success, callbackData := some (.verification vr) },
          contributions := updateEntry db.contributions t.contributionId c1 }
      let res := creditCampaign db2 c.campaignId camp c1 "card"
      (res.1, res.2, ⟨200, true, "Payment successful!"⟩)) := by
  unfold verifyPaystackPayment
  rw [ht]
  simp only [hs, DB.saveTransaction, DB.saveContribution, if_pos rfl, if_true]
  rw [show ({ db with transactions := updateEntry db.transactions txId { t with status := .success, callbackData := some (.verification vr) } } : DB).contributions = db.contributions from rfl]
  simp only [hc, hcamp, if_true]

/-- Characters kept by the `[^0-9+]` removal: digits and the plus
sign. -/
theorem keepPhoneChar_of_digit_or_plus (c : Char) (h : c.isDigit = true ∨ c = '+') :
    MPESAService.keepPhoneChar c = true := by
  rcases h with hd | rfl
  · simp [MPESAService.keepPhoneChar, hd]
  · decide

/-- Digits and the plus sign are not whitespace. -/
theorem not_jsIsSpace_of_digit_or_plus (c : Char) (h : c.isDigit = true ∨ c = '+') :
    MPESAService.jsIsSpace c = false := by
  rcases h with hd | rfl
  · simp only [MPESAService.jsIsSpace, decide_eq_false_iff_not]
    rintro (rfl | rfl | rfl | rfl | rfl | rfl) <;> exact absurd hd (by decide)
  · decide

/-- The two character filters of `formatPhoneNumber` keep a string of
digits and plus signs intact. -/
theorem phone_filters_id (l : List Char) (h : ∀ c ∈ l, c.isDigit = true ∨ c = '+') :
    (l.filter (fun c => !MPESAService.jsIsSpace c)).filter MPESAService.keepPhoneChar = l := by
  have h1 : l.filter (fun c => !MPESAService.jsIsSpace c) = l :=
    List.filter_eq_self.mpr (fun a ha => by
      rw [not_jsIsSpace_of_digit_or_plus a (h a ha)]
      rfl)
  rw [h1]
  exact List.filter_eq_self.mpr (fun a ha => keepPhoneChar_of_digit_or_plus a (h a ha))

/-- A `+254`-prefixed digit string loses only the plus sign. -/
theorem formatPhoneChars_plus254 (n : List Char) (hn : ∀ c ∈ n, c.isDigit = true) :
    MPESAService.formatPhoneChars ('+' :: '2' :: '5' :: '4' :: n) = '2' :: '5' :: '4' :: n := by
  unfold MPESAService.formatPhoneChars
  rw [phone_filters_id _ (by
    intro c hc
    simp only [List.mem_cons] at hc
    rcases hc with rfl | rfl | rfl | rfl | hc
    · right; rfl
    · left; decide
    · left; decide
    · left; decide
    · left; exact hn c hc)]
  simp [List.isPrefixOf]

/-- A `0`-prefixed digit string has the zero replaced by `254`. -/
theorem formatPhoneChars_zero (n : List Char) (hn : ∀ c ∈ n, c.isDigit = true) :
    MPESAService.formatPhoneChars ('0' :: n) = '2' :: '5' :: '4' :: n := by
  unfold MPESAService.formatPhoneChars
  rw [phone_filters_id _ (by
    intro c hc
    simp only [List.mem_cons] at hc
    rcases hc with rfl | hc
    · left; decide
    · left; exact hn c hc)]
  simp [List.isPrefixOf]

/-- A `254`-prefixed digit string is already canonical. -/
theorem formatPhoneChars_bare254 (n : List Char) (hn : ∀ c ∈ n, c.isDigit = true) :
    MPESAService.formatPhoneChars ('2' :: '5' :: '4' :: n) = '2' :: '5' :: '4' :: n := by
  unfold MPESAService.formatPhoneChars
  rw [phone_filters_id _ (by
    intro c hc
    simp only [List.mem_cons] at hc
    rcases hc with rfl | rfl | rfl | hc
    · left; decide
    · left; decide
    · left; decide
    · left; exact hn c hc)]
  simp [List.isPrefixOf]

/-- Once a campaign is completed, the M-Pesa callback handler never
moves it away from `completed`, whatever the payload. -/
theorem mpesa_completed_stays (db : DB) (body : JsValue) (cid : Nat) (camp : Campaign)
    (h : db.campaigns.lookup cid = some camp) (hcomp : camp.status = .completed) :
    ∃ camp', (handleMPESACallback db body).1.campaigns.lookup cid = some camp' ∧
      camp'.status = .completed := by
  unfold handleMPESACallback
  repeat' split
  all_goals (try dsimp only)
  repeat' split
  all_goals (try dsimp only)
  repeat' split
  all_goals
    first
    | exact ⟨camp, h, hcomp⟩
    | (apply creditCampaign_status_completed <;> first | assumption | exact h | exact hcomp)

/-- Once a campaign is completed, the Paystack webhook handler never
moves it away from `completed`. -/
theorem webhook_completed_stays (db : DB) (body : JsValue) (cid : Nat) (camp : Campaign)
    (h : db.campaigns.lookup cid = some camp) (hcomp : camp.status = .completed) :
    ∃ camp', (handlePaystackWebhook db body).1.campaigns.lookup cid = some camp' ∧
      camp'.status = .completed := by
  unfold handlePaystackWebhook
  repeat' split
  all_goals (try dsimp only)
  repeat' split
  all_goals (try dsimp only)
  repeat' split
  all_goals
    first
    | exact ⟨camp, h, hcomp⟩
    | (apply creditCampaign_status_completed <;> first | assumption | exact h | exact hcomp)

/-- Once a campaign is completed, the Paystack verify handler never
moves it away from `completed`. -/
theorem verify_completed_stays (db : DB) (reference : String) (vr : VerifyResult)
    (cid : Nat) (camp : Campaign)
    (h : db.campaigns.lookup cid = some camp) (hcomp : camp.status = .completed) :
    ∃ camp', (verifyPaystackPayment db reference vr).1.campaigns.lookup cid = some camp' ∧
      camp'.status = .completed := by
  unfold verifyPaystackPayment
  repeat' split
  all_goals (try dsimp only)
  repeat' split
  all_goals (try dsimp only)
  repeat' split
  all_goals
    first
    | exact ⟨camp, h, hcomp⟩
    | (apply creditCampaign_status_completed <;> first | assumption | exact h | exact hcomp)

/-- Events emitted on the M-Pesa success path: a campaign update and a
new-contribution event carrying the resolved donor name, followed
possibly by a completion event. -/
theorem mpesa_success_events (db : DB) (body : JsValue) (cr : MPESAService.CallbackResult)
    (txId : Nat) (t : Transaction) (c : Contribution) (camp : Campaign)
    (h : MPESAService.processCallback body = .ok cr)
    (hs : cr.success = true)
    (ht : db.findTransactionByRef cr.checkoutRequestID = some (txId, t))
    (hc : db.contributions.lookup t.contributionId = some c)
    (hcamp : db.campaigns.lookup c.campaignId = some camp) :
    ∃ rest, (handleMPESACallback db body).2.1 =
      SocketEvent.campaignUpdated c.campaignId (camp.currentAmount + c.amount)
        (Campaign.completionPercentage
          { camp with currentAmount := camp.currentAmount + c.amount })
        c.amount c.isAnonymous (resolveDonorName db.users c) ::
      SocketEvent.newContribution c.campaignId c.amount c.isAnonymous
        (resolveDonorName db.users c) "mpesa" :: rest := by
  rw [mpesa_success db body cr txId t c camp h hs ht hc hcamp]
  exact creditCampaign_events _ _ _ _ _

/-- Events emitted on the Paystack webhook success path. -/
theorem webhook_success_events (db : DB) (body : JsValue) (wr : PaystackService.WebhookResult)
    (txId : Nat) (t : Transaction) (c : Contribution) (camp : Campaign)
    (h : PaystackService.processWebhook body = .ok wr)
    (he : wr.event.eqStr "charge.success" = true)
    (hs : wr.success = true)
    (ht : db.findTransactionByRef wr.reference = some (txId, t))
    (hc : db.contributions.lookup t.contributionId = some c)
    (hcamp : db.campaigns.lookup c.campaignId = some camp) :
    ∃ rest, (handlePaystackWebhook db body).2.1 =
      SocketEvent.campaignUpdated c.campaignId (camp.currentAmount + c.amount)
        (Campaign.completionPercentage
          { camp with currentAmount := camp.currentAmount + c.amount })
        c.amount c.isAnonymous (resolveDonorName db.users c) ::
      SocketEvent.newContribution c.campaignId c.amount c.isAnonymous
        (resolveDonorName db.users c) "card" :: rest := by
  rw [webhook_success db body wr txId t c camp h he hs ht hc hcamp]
  exact creditCampaign_events _ _ _ _ _

/-- Donor-name resolution by cases: anonymous contributions carry no
name; named guests surface the guest name; linked users surface the
user's name. -/
theorem resolveDonorName_cases (users : List (Nat × User)) (c : Contribution) :
    (c.isAnonymous = true → resolveDonorName users c = none) ∧
    (c.isAnonymous = false → c.userId = none → resolveDonorName users c = c.guestName) ∧
    (∀ uid u, c.isAnonymous = false → c.userId = some uid → users.lookup uid = some u →
      resolveDonorName users c = some u.name) := by
  refine ⟨fun ha => ?_, fun ha hu => ?_, fun uid u ha hu hl => ?_⟩
  · simp [resolveDonorName, ha]
  · simp [resolveDonorName, ha, hu]
  · simp [resolveDonorName, ha, hu, hl]

/-- Concrete evaluation: one successful reconciliation of token `CR1`
against `dbA` credits the campaign from 0 to 1000. -/
theorem handleMPESA_dbA_once : handleMPESACallback dbA okBody =
    (dbA1,
     [.campaignUpdated 1 1000 20 1000 false (some "Jane Guest"),
      .newContribution 1 1000 false (some "Jane Guest") "mpesa"],
     ⟨200, 0, "Accepted"⟩) := by
  rw [mpesa_success dbA okBody crOk 1 txCR1 contribJane camp5000 rfl rfl rfl rfl rfl]
  norm_num [creditCampaign, DB.saveCampaign, resolveDonorName, Campaign.completionPercentage,
    round_eq, updateEntry, dbA, dbA1, contribJane, contribJane1, camp5000, txCR1, txCR1s, crOk,
    JsValue.truthy]
  all_goals exact fun h => absurd h (by decide)

/-- Concrete evaluation: replaying the same successful callback against
the already-reconciled store credits the campaign again, to 2000. -/
theorem handleMPESA_dbA_twice : handleMPESACallback dbA1 okBody =
    (dbA2,
     [.campaignUpdated 1 2000 40 1000 false (some "Jane Guest"),
      .newContribution 1 1000 false (some "Jane Guest") "mpesa"],
     ⟨200, 0, "Accepted"⟩) := by
  rw [mpesa_success dbA1 okBody crOk 1 txCR1s contribJane1
    { camp5000 with currentAmount := 1000 } rfl rfl rfl rfl rfl]
  norm_num [creditCampaign, DB.saveCampaign, resolveDonorName, Campaign.completionPercentage,
    round_eq, updateEntry, dbA1, dbA2, contribJane, contribJane1, camp5000, txCR1, txCR1s,
    crOk, JsValue.truthy]
  all_goals exact fun h => absurd h (by decide)

/-- C1: the spec claims reconciliation is idempotent per correlation
token (a duplicate success callback must not double-credit), but the
handler credits the campaign unconditionally, without checking the
transaction's prior status: replaying the same successful callback for
token `CR1` credits the campaign from 1000 to 2000 and changes the end
state, so invoking reconcile twice is not the same as invoking it
once. -/
theorem mpesa_callback_double_credits_same_token :
    ((handleMPESACallback dbA okBody).1.campaigns.lookup 1).map Campaign.currentAmount
      = some 1000 ∧
    ((handleMPESACallback (handleMPESACallback dbA okBody).1 okBody).1.campaigns.lookup 1).map
      Campaign.currentAmount = some 2000 ∧
    (handleMPESACallback (handleMPESACallback dbA okBody).1 okBody).1
      ≠ (handleMPESACallback dbA okBody).1 := by
  refine ⟨?_, ?_, ?_⟩
  · rw [handleMPESA_dbA_once]
    rfl
  · simp only [handleMPESA_dbA_once, handleMPESA_dbA_twice]
    rfl
  · simp only [handleMPESA_dbA_once, handleMPESA_dbA_twice]
    intro heq
    have h := congrArg (fun d : DB => (d.campaigns.lookup 1).map Campaign.currentAmount) heq
    simp only [dbA1, dbA2] at h
    norm_num [List.lookup] at h

/-- C4: with campaign goal 1000 and accumulated 0, one successful
reconciliation of a pending contribution of 1000 sets the accumulated
amount to 1000, flips the status to `completed`, and emits a
campaign-completed event with successful-contribution count 1; the two
trailing conjuncts show the completion condition fails on the
pre-credit amount and holds on the post-credit amount, so the check is
meaningful only after the credit. -/
theorem completion_scenario_goal_1000 :
    handleMPESACallback dbB okBody =
      (dbB1,
       [.campaignUpdated 1 1000 100 1000 false (some "Jane Guest"),
        .newContribution 1 1000 false (some "Jane Guest") "mpesa",
        .campaignCompleted 1 1000 1000 1],
       ⟨200, 0, "Accepted"⟩) ∧
    ¬ (camp1000.currentAmount ≥ camp1000.goalAmount) ∧
    ({ camp1000 with currentAmount := camp1000.currentAmount + contribJane.amount }
      : Campaign).currentAmount ≥ camp1000.goalAmount := by
  refine ⟨?_, by norm_num [camp1000], by norm_num [camp1000, contribJane]⟩
  rw [mpesa_success dbB okBody crOk 1 txCR1 contribJane camp1000 rfl rfl rfl rfl rfl]
  norm_num [creditCampaign, DB.saveCampaign, DB.countSuccessfulContributions, List.filter,
    resolveDonorName, Campaign.completionPercentage, round_eq, updateEntry, dbB, dbB1,
    contribJane, contribJane1, camp1000, txCR1, txCR1s, crOk, JsValue.truthy]
  all_goals simp

/-- C5: campaign completion is monotonic: whenever a stored campaign
has status `completed`, no invocation of any of the three
reconciliation handlers (M-Pesa callback, Paystack webhook, Paystack
verify), with any payload or verification outcome, moves its status
away from `completed`. -/
theorem completed_status_monotonic :
    (∀ db body cid camp, db.campaigns.lookup cid = some camp → camp.status = .completed →
      ∃ camp', (handleMPESACallback db body).1.campaigns.lookup cid = some camp' ∧
        camp'.status = .completed) ∧
    (∀ db body cid camp, db.campaigns.lookup cid = some camp → camp.status = .completed →
      ∃ camp', (handlePaystackWebhook db body).1.campaigns.lookup cid = some camp' ∧
        camp'.status = .completed) ∧
    (∀ db reference vr cid camp, db.campaigns.lookup cid = some camp →
      camp.status = .completed →
      ∃ camp', (verifyPaystackPayment db reference vr).1.campaigns.lookup cid = some camp' ∧
        camp'.status = .completed) :=
  ⟨fun db body cid camp h hc => mpesa_completed_stays db body cid camp h hc,
   fun db body cid camp h hc => webhook_completed_stays db body cid camp h hc,
   fun db reference vr cid camp h hc => verify_completed_stays db reference vr cid camp h hc⟩

/-- Witness for C5 at a concrete completed campaign: replaying a
successful callback against the completed store `dbB1` leaves the
campaign completed. -/
theorem completed_status_monotonic_witness :
    ∃ camp', (handleMPESACallback dbB1 okBody).1.campaigns.lookup 1 = some camp' ∧
      camp'.status = .completed :=
  completed_status_monotonic.1 dbB1 okBody 1
    { goalAmount := 1000, currentAmount := 1000, status := .completed } rfl rfl

/-- C3: a reconciliation invoked with a correlation token that matches
no stored transaction fails with the unknown-transaction 404 response
(a client-error acknowledgment, not the 500 fatal-error shape) and
returns the store unchanged with no events, in all three handlers. -/
theorem unknown_token_404_no_mutation :
    (∀ db body cr, MPESAService.processCallback body = .ok cr →
      db.findTransactionByRef cr.checkoutRequestID = none →
      handleMPESACallback db body = (db, [], ⟨404, 1, "Transaction not found"⟩)) ∧
    (∀ db body wr, PaystackService.processWebhook body = .ok wr →
      wr.event.eqStr "charge.success" = true →
      db.findTransactionByRef wr.reference = none →
      handlePaystackWebhook db body = (db, [], ⟨404, "transaction not found"⟩)) ∧
    (∀ db reference vr, db.findTransactionByRefStr reference = none →
      verifyPaystackPayment db reference vr = (db, [], ⟨404, false, "Transaction not found."⟩)) :=
  ⟨fun db body cr h ht => mpesa_no_transaction db body cr h ht,
   fun db body wr h he ht => webhook_no_transaction db body wr h he ht,
   fun db reference vr ht => verify_no_transaction db reference vr ht⟩

/-- Witness for C3: concrete unknown-token notifications against `dbA`
are answered 404 with no mutation, on all three handlers. -/
theorem unknown_token_404_no_mutation_witness :
    handleMPESACallback dbA nopeBody = (dbA, [], ⟨404, 1, "Transaction not found"⟩) ∧
    handlePaystackWebhook dbA whNopeBody = (dbA, [], ⟨404, "transaction not found"⟩) ∧
    verifyPaystackPayment dbA "NOPE" vrOk = (dbA, [], ⟨404, false, "Transaction not found."⟩) :=
  ⟨unknown_token_404_no_mutation.1 dbA nopeBody crNope rfl rfl,
   unknown_token_404_no_mutation.2.1 dbA whNopeBody wrNope rfl rfl rfl,
   unknown_token_404_no_mutation.2.2 dbA "NOPE" vrOk rfl⟩

/-- C9 counterexample: the claim says an unknown-token notification is
acknowledged to the provider as handled; in fact both webhook handlers
answer it with a 404 error shape (`ResultCode 1` / `transaction not
found`), which differs from the success acknowledgment they send when a
notification is handled (`200`/`ResultCode 0 Accepted`, `200 success`). -/
theorem unknown_token_response_is_404_error :
    handleMPESACallback dbA nopeBody = (dbA, [], ⟨404, 1, "Transaction not found"⟩) ∧
    (handleMPESACallback dbA nopeBody).2.2 ≠ ⟨200, 0, "Accepted"⟩ ∧
    handlePaystackWebhook dbA whNopeBody = (dbA, [], ⟨404, "transaction not found"⟩) ∧
    (handlePaystackWebhook dbA whNopeBody).2.2 ≠ ⟨200, "success"⟩ := by
  have h1 := mpesa_no_transaction dbA nopeBody crNope rfl rfl
  have h2 := webhook_no_transaction dbA whNopeBody wrNope rfl rfl rfl
  refine ⟨h1, ?_, h2, ?_⟩
  · rw [h1]; decide
  · rw [h2]; decide

/-- C9 (amended): a notification with an unknown correlation token is
logged and answered with a non-retriable 404 error response — not the
provider's success acknowledgment — and is not treated as success: the
store is unchanged and no events fire. -/
theorem unknown_token_rejected_not_acknowledged :
    (∀ db body cr, MPESAService.processCallback body = .ok cr →
      db.findTransactionByRef cr.checkoutRequestID = none →
      handleMPESACallback db body = (db, [], ⟨404, 1, "Transaction not found"⟩) ∧
      (handleMPESACallback db body).2.2 ≠ ⟨200, 0, "Accepted"⟩) ∧
    (∀ db body wr, PaystackService.processWebhook body = .ok wr →
      wr.event.eqStr "charge.success" = true →
      db.findTransactionByRef wr.reference = none →
      handlePaystackWebhook db body = (db, [], ⟨404, "transaction not found"⟩) ∧
      (handlePaystackWebhook db body).2.2 ≠ ⟨200, "success"⟩) := by
  constructor
  · intro db body cr h ht
    have h1 := mpesa_no_transaction db body cr h ht
    refine ⟨h1, ?_⟩
    rw [h1]
    intro hx
    exact (show ¬ (404 : Nat) = 200 by decide) (congrArg MpesaAck.status hx)
  · intro db body wr h he ht
    have h1 := webhook_no_transaction db body wr h he ht
    refine ⟨h1, ?_⟩
    rw [h1]
    intro hx
    exact (show ¬ (404 : Nat) = 200 by decide) (congrArg WebhookAck.status hx)

/-- Witness for the amended C9 at concrete unknown-token payloads. -/
theorem unknown_token_rejected_not_acknowledged_witness :
    (handleMPESACallback dbA nopeBody = (dbA, [], ⟨404, 1, "Transaction not found"⟩) ∧
      (handleMPESACallback dbA nopeBody).2.2 ≠ ⟨200, 0, "Accepted"⟩) ∧
    (handlePaystackWebhook dbA whNopeBody = (dbA, [], ⟨404, "transaction not found"⟩) ∧
      (handlePaystackWebhook dbA whNopeBody).2.2 ≠ ⟨200, "success"⟩) :=
  ⟨unknown_token_rejected_not_acknowledged.1 dbA nopeBody crNope rfl rfl,
   unknown_token_rejected_not_acknowledged.2 dbA whNopeBody wrNope rfl rfl rfl⟩

/-- C7 counterexample: on a malformed payload (an empty object) both
notification parsers throw a runtime `TypeError` — there is no explicit
`MalformedNotification` rejection anywhere — and the handlers answer
with their generic 500 internal-server-error shape. -/
theorem malformed_payload_throws_typeError :
    MPESAService.processCallback (.obj []) = .error .typeError ∧
    PaystackService.processWebhook (.obj []) = .error .typeError ∧
    handleMPESACallback dbA (.obj []) = (dbA, [], ⟨500, 1, "Internal server error"⟩) ∧
    handlePaystackWebhook dbA (.obj []) = (dbA, [], ⟨500, "error"⟩) :=
  ⟨rfl, rfl, mpesa_parse_error dbA (.obj []) .typeError rfl,
   webhook_parse_error dbA (.obj []) .typeError rfl⟩

/-- C7 (amended): the parsers are pure functions of the payload value
(they are total Lean functions into `Except` and perform no I/O); a
payload on which parsing throws makes the handler catch the throw and
answer 500 with the store unchanged and no events — the handler
invocation itself always returns a response instead of crashing, but
no explicit `MalformedNotification` rejection exists. -/
theorem parse_throw_caught_as_500 :
    (∀ db body e, MPESAService.processCallback body = .error e →
      handleMPESACallback db body = (db, [], ⟨500, 1, "Internal server error"⟩)) ∧
    (∀ db body e, PaystackService.processWebhook body = .error e →
      handlePaystackWebhook db body = (db, [], ⟨500, "error"⟩)) :=
  ⟨fun db body e h => mpesa_parse_error db body e h,
   fun db body e h => webhook_parse_error db body e h⟩

/-- Witness for the amended C7 at the empty-object payload. -/
theorem parse_throw_caught_as_500_witness :
    handleMPESACallback dbA (.obj []) = (dbA, [], ⟨500, 1, "Internal server error"⟩) ∧
    handlePaystackWebhook dbA (.obj []) = (dbA, [], ⟨500, "error"⟩) :=
  ⟨parse_throw_caught_as_500.1 dbA (.obj []) .typeError rfl,
   parse_throw_caught_as_500.2 dbA (.obj []) .typeError rfl⟩

/-- C2 counterexample: the claim says a failed-outcome reconciliation
mutates only the transaction's status/callback-payload/error-message
and the contribution's status; but the Paystack verify handler also
overwrites the contribution's stored provider transaction id on a
failed outcome (from `none` to the verification id `"55"`). -/
theorem verify_failed_overwrites_transactionId :
    ((verifyPaystackPayment dbA "CR1" vrFail).1.contributions.lookup 1).map
      Contribution.transactionId = some (some "55") ∧
    (dbA.contributions.lookup 1).map Contribution.transactionId = some none := by
  constructor
  · rw [verify_failed dbA "CR1" vrFail 1 txCR1 contribJane (by decide) rfl rfl]
    rfl
  · rfl

/-- C2 (amended): a failed-outcome reconciliation on an existing
transaction leaves every campaign unchanged and emits no events; the
only mutations are the transaction's status, callback payload and
error message (the webhook handler skips the error message) and the
contribution's status — except that the Paystack verify handler
additionally overwrites the contribution's provider transaction id.
Each conjunct gives the exact end state, so every other field and
collection is visibly untouched. -/
theorem failed_reconciliation_frame :
    (∀ db body cr txId t c,
      MPESAService.processCallback body = .ok cr → cr.success = false →
      db.findTransactionByRef cr.checkoutRequestID = some (txId, t) →
      db.contributions.lookup t.contributionId = some c →
      handleMPESACallback db body =
        ({ db with
            transactions := updateEntry db.transactions txId
              { t with status := .failed, callbackData := some (.raw body),
                       errorMessage := some cr.resultDescription },
            contributions := updateEntry db.contributions t.contributionId
              { c with paymentStatus := .failed } }, [], ⟨200, 0, "Accepted"⟩)) ∧
    (∀ db body wr txId t c,
      PaystackService.processWebhook body = .ok wr →
      wr.event.eqStr "charge.success" = true → wr.success = false →
      db.findTransactionByRef wr.reference = some (txId, t) →
      db.contributions.lookup t.contributionId = some c →
      handlePaystackWebhook db body =
        ({ db with
            transactions := updateEntry db.transactions txId
              { t with status := .failed, callbackData := some (.raw body) },
            contributions := updateEntry db.contributions t.contributionId
              { c with paymentStatus := .failed } }, [], ⟨200, "success"⟩)) ∧
    (∀ db reference vr txId t c,
      vr.status ≠ "success" →
      db.findTransactionByRefStr reference = some (txId, t) →
      db.contributions.lookup t.contributionId = some c →
      verifyPaystackPayment db reference vr =
        ({ db with
            transactions := updateEntry db.transactions txId
              { t with status := .failed, callbackData := some (.verification vr),
                       errorMessage := some (.str vr.gateway_response) },
            contributions := updateEntry db.contributions t.contributionId
              { c with paymentStatus := .failed,
                       transactionId := some (toString vr.id) } }, [],
          ⟨200, true, "Payment failed"⟩)) :=
  ⟨fun db body cr txId t c h hs ht hc =>
    mpesa_failed db body cr txId t c h hs (processCallback_receipt_none h hs) ht hc,
   fun db body wr txId t c h he hs ht hc =>
    webhook_failed db body wr txId t c h he hs ht hc,
   fun db reference vr txId t c hs ht hc =>
    verify_failed db reference vr txId t c hs ht hc⟩

/-- Witness for the amended C2 at concrete failed notifications for
token `CR1` against `dbA`, for all three handlers. -/
theorem failed_reconciliation_frame_witness :
    handleMPESACallback dbA failBody =
      ({ dbA with
          transactions := updateEntry dbA.transactions 1
            { txCR1 with status := .failed, callbackData := some (.raw failBody),
                         errorMessage := some crFail.resultDescription },
          contributions := updateEntry dbA.contributions 1
            { contribJane with paymentStatus := .failed } }, [], ⟨200, 0, "Accepted"⟩) ∧
    handlePaystackWebhook dbA whFailBody =
      ({ dbA with
          transactions := updateEntry dbA.transactions 1
            { txCR1 with status := .failed, callbackData := some (.raw whFailBody) },
          contributions := updateEntry dbA.contributions 1
            { contribJane with paymentStatus := .failed } }, [], ⟨200, "success"⟩) ∧
    verifyPaystackPayment dbA "CR1" vrFail =
      ({ dbA with
          transactions := updateEntry dbA.transactions 1
            { txCR1 with status := .failed, callbackData := some (.verification vrFail),
                         errorMessage := some (.str vrFail.gateway_response) },
          contributions := updateEntry dbA.contributions 1
            { contribJane with paymentStatus := .failed,
                               transactionId := some (toString vrFail.id) } }, [],
        ⟨200, true, "Payment failed"⟩) :=
  ⟨failed_reconciliation_frame.1 dbA failBody crFail 1 txCR1 contribJane rfl rfl rfl rfl,
   failed_reconciliation_frame.2.1 dbA whFailBody wrFail 1 txCR1 contribJane rfl rfl rfl rfl rfl,
   failed_reconciliation_frame.2.2 dbA "CR1" vrFail 1 txCR1 contribJane (by decide) rfl rfl⟩

/-- C8: on every successful reconciliation the new-contribution event
carries the donor name resolved by the shared rule: `none` when the
contribution is anonymous (in particular for anonymous guest
contributions); otherwise the linked user's name when a user reference
exists and resolves, else the guest name captured at initiation. -/
theorem newContribution_event_donor_name :
    (∀ db body cr txId t c camp,
      MPESAService.processCallback body = .ok cr → cr.success = true →
      db.findTransactionByRef cr.checkoutRequestID = some (txId, t) →
      db.contributions.lookup t.contributionId = some c →
      db.campaigns.lookup c.campaignId = some camp →
      ∃ rest, (handleMPESACallback db body).2.1 =
        SocketEvent.campaignUpdated c.campaignId (camp.currentAmount + c.amount)
          (Campaign.completionPercentage
            { camp with currentAmount := camp.currentAmount + c.amount })
          c.amount c.isAnonymous (resolveDonorName db.users c) ::
        SocketEvent.newContribution c.campaignId c.amount c.isAnonymous
          (resolveDonorName db.users c) "mpesa" :: rest) ∧
    (∀ db body wr txId t c camp,
      PaystackService.processWebhook body = .ok wr →
      wr.event.eqStr "charge.success" = true → wr.success = true →
      db.findTransactionByRef wr.reference = some (txId, t) →
      db.contributions.lookup t.contributionId = some c →
      db.campaigns.lookup c.campaignId = some camp →
      ∃ rest, (handlePaystackWebhook db body).2.1 =
        SocketEvent.campaignUpdated c.campaignId (camp.currentAmount + c.amount)
          (Campaign.completionPercentage
            { camp with currentAmount := camp.currentAmount + c.amount })
          c.amount c.isAnonymous (resolveDonorName db.users c) ::
        SocketEvent.newContribution c.campaignId c.amount c.isAnonymous
          (resolveDonorName db.users c) "card" :: rest) ∧
    (∀ users c, (c.isAnonymous = true → resolveDonorName users c = none) ∧
      (c.isAnonymous = false → c.userId = none → resolveDonorName users c = c.guestName) ∧
      (∀ uid u, c.isAnonymous = false → c.userId = some uid → users.lookup uid = some u →
        resolveDonorName users c = some u.name)) :=
  ⟨fun db body cr txId t c camp h hs ht hc hcamp =>
    mpesa_success_events db body cr txId t c camp h hs ht hc hcamp,
   fun db body wr txId t c camp h he hs ht hc hcamp =>
    webhook_success_events db body wr txId t c camp h he hs ht hc hcamp,
   fun users c => resolveDonorName_cases users c⟩

/-- Witness for C8: reconciling the anonymous guest contribution in
`dbC` emits events whose donor name is the shared resolution, and that
resolution is `none` because the contribution is anonymous. -/
theorem newContribution_event_donor_name_witness :
    (∃ rest, (handleMPESACallback dbC okBody).2.1 =
      SocketEvent.campaignUpdated contribAnon.campaignId
        (camp5000.currentAmount + contribAnon.amount)
        (Campaign.completionPercentage
          { camp5000 with currentAmount := camp5000.currentAmount + contribAnon.amount })
        contribAnon.amount contribAnon.isAnonymous (resolveDonorName dbC.users contribAnon) ::
      SocketEvent.newContribution contribAnon.campaignId contribAnon.amount
        contribAnon.isAnonymous (resolveDonorName dbC.users contribAnon) "mpesa" :: rest) ∧
    resolveDonorName dbC.users contribAnon = none :=
  ⟨newContribution_event_donor_name.1 dbC okBody crOk 1 txCR1 contribAnon camp5000
    rfl rfl rfl rfl rfl,
   (newContribution_event_donor_name.2.2 dbC.users contribAnon).1 rfl⟩

/-- C6: the M-Pesa phone normalization sends `+254`-, `0`- and
`254`-prefixed forms of any digit string to the identical canonical
`254`-prefixed token; in particular the three spec examples all map to
`"254703757369"`. -/
theorem formatPhoneNumber_canonical :
    (∀ n : String, (∀ c ∈ n.data, c.isDigit = true) →
      MPESAService.formatPhoneNumber ("+254" ++ n) = "254" ++ n ∧
      MPESAService.formatPhoneNumber ("0" ++ n) = "254" ++ n ∧
      MPESAService.formatPhoneNumber ("254" ++ n) = "254" ++ n) ∧
    MPESAService.formatPhoneNumber "0703757369" = "254703757369" ∧
    MPESAService.formatPhoneNumber "+254703757369" = "254703757369" ∧
    MPESAService.formatPhoneNumber "254703757369" = "254703757369" := by
  refine ⟨fun n hn => ?_, by decide, by decide, by decide⟩
  obtain ⟨data⟩ := n
  unfold MPESAService.formatPhoneNumber
  refine ⟨?_, ?_, ?_⟩
  · show String.mk (MPESAService.formatPhoneChars ('+' :: '2' :: '5' :: '4' :: data)) = _
    rw [formatPhoneChars_plus254 data hn]
    rfl
  · show String.mk (MPESAService.formatPhoneChars ('0' :: data)) = _
    rw [formatPhoneChars_zero data hn]
    rfl
  · show String.mk (MPESAService.formatPhoneChars ('2' :: '5' :: '4' :: data)) = _
    rw [formatPhoneChars_bare254 data hn]
    rfl

/-- Witness for C6 at the digit string of the spec's examples. -/
theorem formatPhoneNumber_canonical_witness :
    MPESAService.formatPhoneNumber ("+254" ++ "703757369") = "254" ++ "703757369" ∧
    MPESAService.formatPhoneNumber ("0" ++ "703757369") = "254" ++ "703757369" ∧
    MPESAService.formatPhoneNumber ("254" ++ "703757369") = "254" ++ "703757369" :=
  formatPhoneNumber_canonical.1 "703757369" (by decide)

/-- C10: the derived campaign views: `completionPercentage` equals
`min (round (100 * current / goal)) 100`, is `0` when the goal is `0`
(rational division by zero is zero, so the two descriptions agree) and
never exceeds `100`; `remainingAmount` equals
`max (goal - current) 0` and is never negative, even when the
accumulated amount exceeds the goal. -/
theorem campaign_virtual_fields (camp : Campaign) :
    camp.completionPercentage =
      min (round ((100 : Rat) * camp.currentAmount / camp.goalAmount)) 100 ∧
    (camp.goalAmount = 0 → camp.completionPercentage = 0) ∧
    camp.completionPercentage ≤ 100 ∧
    camp.remainingAmount = max (camp.goalAmount - camp.currentAmount) 0 ∧
    0 ≤ camp.remainingAmount := by
  unfold Campaign.completionPercentage Campaign.remainingAmount
  refine ⟨?_, ?_, ?_, rfl, le_max_right _ _⟩
  · by_cases h : camp.goalAmount = 0
    · rw [if_pos h, h]
      norm_num
    · rw [if_neg h]
      congr 2
      ring
  · intro h
    rw [if_pos h]
  · by_cases h : camp.goalAmount = 0
    · rw [if_pos h]
      norm_num
    · rw [if_neg h]
      exact min_le_right _ _

/-- Witness for C10: a zero-goal campaign reports completion 0. -/
theorem campaign_virtual_fields_witness :
    Campaign.completionPercentage { goalAmount := 0, currentAmount := 7, status := .active } = 0 :=
  (campaign_virtual_fields { goalAmount := 0, currentAmount := 7, status := .active }).2.1 rfl
